import Mathlib

set_option maxRecDepth 4000

/-!
Shallow embedding of `src/types/wlr_keyboard.c` (the wlroots keyboard core).

The xkb library is an external collaborator (spec §6); it is modelled by the
`XkbKeymap`/`XkbState` structures below, following the collaborator contract:
index lookups return an index or "absent", `update_mask` overwrites the four
mask components, `update_key` feeds a key transition into the translation
state, and the serialize functions read the four components back.  Signal
emission (`wlr_signal_emit_safe`) and the backend LED hook are modelled as an
explicit list of `Emission`s returned by each operation.
-/

namespace Wlr

/-- WLR_LED_COUNT from wlr/types/wlr_keyboard.h. -/
def WLR_LED_COUNT : Nat := 3

/-- WLR_MODIFIER_COUNT from wlr/types/wlr_keyboard.h. -/
def WLR_MODIFIER_COUNT : Nat := 8

/-- WLR_KEYBOARD_KEYS_CAP from wlr/types/wlr_keyboard.h. -/
def WLR_KEYBOARD_KEYS_CAP : Nat := 32

/-- Model of a compiled xkb keymap (opaque external object, spec §6):
name-to-index lookups for modifiers and indicators (`none` = absent,
i.e. XKB_MOD_INVALID / XKB_LED_INVALID), the depressed-modifier
contribution of each (already offset) keycode, the indicator-activity
predicate over the four mask components, the serialized text form
(`none` = serialization failure) and whether `xkb_state_new` succeeds. -/
structure XkbKeymap where
  modIdx : String → Option Nat
  ledIdx : String → Option Nat
  keyMods : Nat → Nat
  ledActiveAt : Nat → Nat → Nat → Nat → Nat → Bool
  asString : Option String
  stateOk : Bool

/-- Model of a live xkb translation state: the owning keymap plus the four
serialized components (depressed, latched, locked modifier masks and the
effective layout/group index). -/
structure XkbState where
  km : XkbKeymap
  depressed : Nat
  latched : Nat
  locked : Nat
  group : Nat

/-- XKB_KEY_DOWN / XKB_KEY_UP. -/
inductive XkbKeyDirection where
  | down
  | up
deriving DecidableEq

/-- xkb_state_new: fresh translation state for a keymap, or failure. -/
def xkb_state_new (km : XkbKeymap) : Option XkbState :=
  if km.stateOk then some ⟨km, 0, 0, 0, 0⟩ else none

/-- xkb_state_update_mask(state, base_mods, latched_mods, locked_mods,
base_group, latched_group, locked_group): overwrites the mask components
wholesale; the effective group combines the three group arguments. -/
def xkb_state_update_mask (s : XkbState) (base_mods latched_mods locked_mods
    base_group latched_group locked_group : Nat) : XkbState :=
  { s with depressed := base_mods, latched := latched_mods,
           locked := locked_mods,
           group := base_group + latched_group + locked_group }

/-- xkb_state_update_key: a key-down transition adds the key's modifier
contribution to the depressed mask, a key-up transition removes it. -/
def xkb_state_update_key (s : XkbState) (keycode : Nat)
    (dir : XkbKeyDirection) : XkbState :=
  match dir with
  | .down => { s with depressed := s.depressed ||| s.km.keyMods keycode }
  | .up => { s with depressed := Nat.ldiff s.depressed (s.km.keyMods keycode) }

/-- xkb_state_serialize_mods(state, XKB_STATE_MODS_DEPRESSED). -/
def xkb_state_serialize_depressed (s : XkbState) : Nat := s.depressed

/-- xkb_state_serialize_mods(state, XKB_STATE_MODS_LATCHED). -/
def xkb_state_serialize_latched (s : XkbState) : Nat := s.latched

/-- xkb_state_serialize_mods(state, XKB_STATE_MODS_LOCKED). -/
def xkb_state_serialize_locked (s : XkbState) : Nat := s.locked

/-- xkb_state_serialize_layout(state, XKB_STATE_LAYOUT_EFFECTIVE). -/
def xkb_state_serialize_layout (s : XkbState) : Nat := s.group

/-- xkb_map_mod_get_index: index of a named modifier, or XKB_MOD_INVALID
(modelled as `none`) when the keymap does not define it. -/
def xkb_map_mod_get_index (km : XkbKeymap) (name : String) : Option Nat :=
  km.modIdx name

/-- xkb_map_led_get_index: index of a named indicator, or XKB_LED_INVALID
(modelled as `none`) when the keymap does not define it. -/
def xkb_map_led_get_index (km : XkbKeymap) (name : String) : Option Nat :=
  km.ledIdx name

/-- xkb_state_led_index_is_active, following the documented xkbcommon API:
returns 1 if the led is active, 0 if it is not, and -1 if the led index is
not valid in the keymap (the stored index is XKB_LED_INVALID exactly when
the lookup reported the indicator absent). -/
def xkb_state_led_index_is_active (s : XkbState) (idx : Option Nat) : Int :=
  match idx with
  | none => -1
  | some i => if s.km.ledActiveAt s.depressed s.latched s.locked s.group i
              then 1 else 0

/-- xkb_keymap_get_as_string(keymap, XKB_KEYMAP_FORMAT_TEXT_V1):
canonical textual form, or failure. -/
def xkb_keymap_get_as_string (km : XkbKeymap) : Option String :=
  km.asString

/-- The wlr_keyboard_modifiers struct: the four stored serialized masks. -/
@[ext] structure ModState where
  depressed : Nat
  latched : Nat
  locked : Nat
  group : Nat
deriving DecidableEq

/-- enum wlr_key_state. -/
inductive KeyState where
  | released
  | pressed
deriving DecidableEq

/-- struct wlr_event_keyboard_key. -/
structure KeyEvent where
  time_msec : Nat
  keycode : Nat
  update_state : Bool
  state : KeyState
deriving DecidableEq

/-- Observable effects of one call: signal emissions on the key, modifiers,
keymap and repeat_info signals, and the indicator bitmask handed to the
backend hook by wlr_keyboard_led_update. -/
inductive Emission where
  | key (e : KeyEvent)
  | modifiers
  | keymap
  | repeatInfo
  | ledPush (leds : Nat)
deriving DecidableEq

/-- struct wlr_keyboard (the fields the core reads and writes).  `none` in
`led_indexes` / `mod_indexes` stands for XKB_LED_INVALID / XKB_MOD_INVALID. -/
structure Keyboard where
  keycodes : List Nat
  keymap : Option XkbKeymap
  xkb_state : Option XkbState
  led_indexes : List (Option Nat)
  mod_indexes : List (Option Nat)
  modifiers : ModState
  keymap_string : Option String
  keymap_size : Nat
  repeat_rate : Int
  repeat_delay : Int

/-- Modelled from the spec: `set_add` of util/array.h is code of this
repository that is not under src/.  Spec §3/§4.1: KeySet is an unordered,
duplicate-free collection; "add(keycode) inserts if absent, capped at
capacity". -/
def set_add (keys : List Nat) (cap : Nat) (k : Nat) : List Nat :=
  if k ∈ keys then keys
  else if keys.length < cap then keys ++ [k]
  else keys

/-- Modelled from the spec: `set_remove` of util/array.h is code of this
repository that is not under src/.  Spec §4.1: "remove(keycode) deletes if
present, no-op otherwise". -/
def set_remove (keys : List Nat) (k : Nat) : List Nat :=
  keys.erase k

/-- wlr_keyboard_init, applied to the zero-allocated struct the callers
pass in (calloc zeroes every field; init then sets the repeat defaults). -/
def wlr_keyboard_init : Keyboard :=
  { keycodes := []
    keymap := none
    xkb_state := none
    led_indexes := List.replicate WLR_LED_COUNT (some 0)
    mod_indexes := List.replicate WLR_MODIFIER_COUNT (some 0)
    modifiers := ⟨0, 0, 0, 0⟩
    keymap_string := none
    keymap_size := 0
    repeat_rate := 25
    repeat_delay := 600 }

/-- wlr_keyboard_led_update: hands the assembled indicator bitmask to the
backend hook (impl->led_update, the out-of-scope indicator-hardware
collaborator); modelled as an observable emission. -/
def wlr_keyboard_led_update (leds : Nat) : List Emission :=
  [Emission.ledPush leds]

/-- keyboard_led_update (static): no-op without a translation state;
otherwise assembles the 3-bit indicator mask — bit i is set when the C
truthiness test on xkb_state_led_index_is_active holds, i.e. when the
result is nonzero — and pushes it. -/
def keyboard_led_update (kb : Keyboard) : List Emission :=
  match kb.xkb_state with
  | none => []
  | some s =>
      wlr_keyboard_led_update ((List.range WLR_LED_COUNT).foldl
        (fun leds i =>
          if xkb_state_led_index_is_active s (kb.led_indexes.getD i none) ≠ 0
          then leds ||| (1 <<< i) else leds) 0)

/-- keyboard_modifier_update (static): serializes the four masks from the
translation state, compares them with the stored ModState, stores and
reports "changed" when any differs. -/
def keyboard_modifier_update (kb : Keyboard) : Keyboard × Bool :=
  match kb.xkb_state with
  | none => (kb, false)
  | some s =>
      let depressed := xkb_state_serialize_depressed s
      let latched := xkb_state_serialize_latched s
      let locked := xkb_state_serialize_locked s
      let group := xkb_state_serialize_layout s
      if depressed = kb.modifiers.depressed ∧ latched = kb.modifiers.latched ∧
          locked = kb.modifiers.locked ∧ group = kb.modifiers.group then
        (kb, false)
      else
        ({ kb with modifiers := ⟨depressed, latched, locked, group⟩ }, true)

/-- keyboard_key_update (static): KeySet bookkeeping for one key event. -/
def keyboard_key_update (kb : Keyboard) (e : KeyEvent) : Keyboard :=
  let keycodes :=
    if e.state = KeyState.pressed then
      set_add kb.keycodes WLR_KEYBOARD_KEYS_CAP e.keycode
    else kb.keycodes
  let keycodes :=
    if e.state = KeyState.released then set_remove keycodes e.keycode
    else keycodes
  { kb with keycodes := keycodes }

/-- wlr_keyboard_notify_modifiers. -/
def wlr_keyboard_notify_modifiers (kb : Keyboard)
    (mods_depressed mods_latched mods_locked group : Nat) :
    Keyboard × List Emission :=
  match kb.xkb_state with
  | none => (kb, [])
  | some s =>
      let kb := { kb with xkb_state := some (xkb_state_update_mask s
        mods_depressed mods_latched mods_locked 0 0 group) }
      let p := keyboard_modifier_update kb
      let ems := if p.2 then [Emission.modifiers] else []
      (p.1, ems ++ keyboard_led_update p.1)

/-- wlr_keyboard_notify_key. -/
def wlr_keyboard_notify_key (kb : Keyboard) (e : KeyEvent) :
    Keyboard × List Emission :=
  let kb := keyboard_key_update kb e
  let ems := [Emission.key e]
  match kb.xkb_state with
  | none => (kb, ems)
  | some s =>
      let kb :=
        if e.update_state then
          { kb with xkb_state := some (xkb_state_update_key s (e.keycode + 8)
            (if e.state = KeyState.pressed then XkbKeyDirection.down
             else XkbKeyDirection.up)) }
        else kb
      let p := keyboard_modifier_update kb
      let ems := ems ++ (if p.2 then [Emission.modifiers] else [])
      (p.1, ems ++ keyboard_led_update p.1)

/-- The led_names array in wlr_keyboard_set_keymap (XKB_LED_NAME_NUM,
XKB_LED_NAME_CAPS, XKB_LED_NAME_SCROLL). -/
def led_names : List String := ["Num Lock", "Caps Lock", "Scroll Lock"]

/-- The mod_names array in wlr_keyboard_set_keymap (XKB_MOD_NAME_SHIFT,
XKB_MOD_NAME_CAPS, XKB_MOD_NAME_CTRL, XKB_MOD_NAME_ALT, XKB_MOD_NAME_NUM,
"Mod3", XKB_MOD_NAME_LOGO, "Mod5"). -/
def mod_names : List String :=
  ["Shift", "Lock", "Control", "Mod1", "Mod2", "Mod3", "Mod4", "Mod5"]

/-- The err label of wlr_keyboard_set_keymap: release and clear the
translation state, the keymap reference and the serialized keymap. -/
def clearKeymapFields (kb : Keyboard) : Keyboard :=
  { kb with xkb_state := none, keymap := none, keymap_string := none }

/-- wlr_keyboard_set_keymap, including the err rollback path (clear
xkb_state, keymap and keymap_string; emit nothing). -/
def wlr_keyboard_set_keymap (kb : Keyboard) (keymap : XkbKeymap) :
    Keyboard × List Emission :=
  let kb := { kb with keymap := some keymap }
  match xkb_state_new keymap with
  | none =>
      (clearKeymapFields kb, [])
  | some st =>
      let kb := { kb with xkb_state := some st }
      let kb := { kb with
        led_indexes := led_names.map (xkb_map_led_get_index keymap) }
      let kb := { kb with
        mod_indexes := mod_names.map (xkb_map_mod_get_index keymap) }
      match xkb_keymap_get_as_string keymap with
      | none =>
          (clearKeymapFields kb, [])
      | some str =>
          let kb := { kb with keymap_string := some str,
                              keymap_size := str.length + 1 }
          let kb := { kb with xkb_state := some (kb.keycodes.foldl
            (fun s kc => xkb_state_update_key s (kc + 8) XkbKeyDirection.down)
            st) }
          let kb := (keyboard_modifier_update kb).1
          (kb, [Emission.keymap])

/-- wlr_keyboard_set_repeat_info. -/
def wlr_keyboard_set_repeat_info (kb : Keyboard) (rate delay : Int) :
    Keyboard × List Emission :=
  if kb.repeat_rate = rate ∧ kb.repeat_delay = delay then (kb, [])
  else ({ kb with repeat_rate := rate, repeat_delay := delay },
        [Emission.repeatInfo])

/-- The guard of one iteration of the wlr_keyboard_get_modifiers loop:
mod_indexes[i] != XKB_MOD_INVALID && (mask & (1 << mod_indexes[i])). -/
def modIndexActive (kb : Keyboard) (mask i : Nat) : Bool :=
  match kb.mod_indexes.getD i none with
  | some idx => mask &&& (1 <<< idx) ≠ 0
  | none => false

/-- wlr_keyboard_get_modifiers. -/
def wlr_keyboard_get_modifiers (kb : Keyboard) : Nat :=
  let mask := kb.modifiers.depressed ||| kb.modifiers.latched
  (List.range WLR_MODIFIER_COUNT).foldl
    (fun modifiers i =>
      if modIndexActive kb mask i then modifiers ||| (1 <<< i) else modifiers)
    0

/-- The four serialized masks of a translation state, packaged as a
ModState snapshot (the four serialize calls of keyboard_modifier_update). -/
def serializedMods (s : XkbState) : ModState :=
  ⟨xkb_state_serialize_depressed s, xkb_state_serialize_latched s,
   xkb_state_serialize_locked s, xkb_state_serialize_layout s⟩

/-- The translation-state step performed by wlr_keyboard_notify_key:
the state advances only when the event requests a state update. -/
def notifyKeyXkbStep (s : XkbState) (e : KeyEvent) : XkbState :=
  if e.update_state then
    xkb_state_update_key s (e.keycode + 8)
      (if e.state = KeyState.pressed then XkbKeyDirection.down
       else XkbKeyDirection.up)
  else s

/-- Classifier for indicator-push emissions. -/
def isLedPush : Emission → Bool
  | Emission.ledPush _ => true
  | _ => false

/-- One KeySet operation: a key press or a key release. -/
inductive KeyOp where
  | press (k : Nat)
  | release (k : Nat)
deriving DecidableEq

/-- The KeySet contents after running a press/release sequence through
set_add / set_remove with the keyboard's capacity, starting empty. -/
def applyKeyOps (ops : List KeyOp) : List Nat :=
  ops.foldl
    (fun ks op =>
      match op with
      | .press k => set_add ks WLR_KEYBOARD_KEYS_CAP k
      | .release k => set_remove ks k)
    []

/-- Reference semantics: the list of distinct currently-pressed keycodes
after a press/release sequence (a keycode is pressed when its last
operation was a press), with no capacity bound. -/
def pressedRef (ops : List KeyOp) : List Nat :=
  ops.foldl
    (fun ks op =>
      match op with
      | .press k => if k ∈ ks then ks else ks ++ [k]
      | .release k => ks.erase k)
    []

/-- Concrete keymap: Shift at modifier index 0, (offset) keycode 13
contributes the Shift bit, CapsLock/ScrollLock indicators at indices 0/1,
no NumLock indicator, no indicator ever lit. -/
def kmW : XkbKeymap :=
  { modIdx := fun n => if n = "Shift" then some 0 else none
    ledIdx := fun n =>
      if n = "Caps Lock" then some 0
      else if n = "Scroll Lock" then some 1 else none
    keyMods := fun kc => if kc = 13 then 1 else 0
    ledActiveAt := fun _ _ _ _ _ => false
    asString := some "W"
    stateOk := true }

/-- The fresh translation state of kmW. -/
def stW : XkbState := ⟨kmW, 0, 0, 0, 0⟩

/-- Keyboard obtained by loading kmW on a freshly initialized keyboard. -/
def kbW : Keyboard := (wlr_keyboard_set_keymap wlr_keyboard_init kmW).1

/-- Key event: press keycode 5 (offset keycode 13) with state update. -/
def evW : KeyEvent := ⟨100, 5, true, KeyState.pressed⟩

/-- Key event: press keycode 9 (offset keycode 17, contributing no
modifier in kmW) with state update. -/
def evNoMod : KeyEvent := ⟨101, 9, true, KeyState.pressed⟩

/-- Concrete keymap A: Shift at modifier index 3. -/
def kmA : XkbKeymap :=
  { modIdx := fun n => if n = "Shift" then some 3 else none
    ledIdx := fun _ => none
    keyMods := fun _ => 0
    ledActiveAt := fun _ _ _ _ _ => false
    asString := some "A"
    stateOk := true }

/-- Concrete keymap B: translation-state construction fails; defines no
modifiers at all. -/
def kmB : XkbKeymap :=
  { modIdx := fun _ => none
    ledIdx := fun _ => none
    keyMods := fun _ => 0
    ledActiveAt := fun _ _ _ _ _ => false
    asString := some "B"
    stateOk := false }

/-- Keyboard obtained by loading kmA on a freshly initialized keyboard. -/
def kbAB : Keyboard := (wlr_keyboard_set_keymap wlr_keyboard_init kmA).1

/-- Concrete keymap: Shift at index 0; only (offset) keycode 13
contributes a modifier. -/
def kmC6 : XkbKeymap :=
  { modIdx := fun n => if n = "Shift" then some 0 else none
    ledIdx := fun _ => none
    keyMods := fun kc => if kc = 13 then 1 else 0
    ledActiveAt := fun _ _ _ _ _ => false
    asString := some "C"
    stateOk := true }

/-- A press event (with state update) for a given keycode. -/
def evPress (k : Nat) : KeyEvent := ⟨0, k, true, KeyState.pressed⟩

/-- Fresh keyboard (no keymap) after pressing keycode 5. -/
def kbHeld1 : Keyboard :=
  (wlr_keyboard_notify_key wlr_keyboard_init (evPress 5)).1

/-- Fresh keyboard (no keymap) after pressing keycodes 5 and 6. -/
def kbHeld2 : Keyboard :=
  (wlr_keyboard_notify_key kbHeld1 (evPress 6)).1

/-- Concrete keyboard with a populated modifier-index table and stored
masks, for exercising wlr_keyboard_get_modifiers. -/
def kbMods : Keyboard :=
  { keycodes := []
    keymap := none
    xkb_state := none
    led_indexes := [none, none, none]
    mod_indexes := [some 1, none, some 0, none, none, none, none, none]
    modifiers := ⟨2, 0, 0, 0⟩
    keymap_string := none
    keymap_size := 0
    repeat_rate := 25
    repeat_delay := 600 }

/-- Concrete press/release sequence for exercising the KeySet invariants:
a repeated press, a press of a second key, a release of an unheld key and
a release of a held key. -/
def opsW : List KeyOp :=
  [KeyOp.press 5, KeyOp.press 5, KeyOp.press 7, KeyOp.release 9,
   KeyOp.release 7]

theorem keyboard_modifier_update_eq (kb : Keyboard) (s : XkbState)
    (h : kb.xkb_state = some s) :
    keyboard_modifier_update kb =
      if serializedMods s = kb.modifiers then (kb, false)
      else ({ kb with modifiers := serializedMods s }, true) := by
  have hcond : (xkb_state_serialize_depressed s = kb.modifiers.depressed ∧
      xkb_state_serialize_latched s = kb.modifiers.latched ∧
      xkb_state_serialize_locked s = kb.modifiers.locked ∧
      xkb_state_serialize_layout s = kb.modifiers.group) ↔
      serializedMods s = kb.modifiers := by
    rw [ModState.ext_iff]
    exact Iff.rfl
  simp only [keyboard_modifier_update, h]
  by_cases hb : serializedMods s = kb.modifiers
  · rw [if_pos (hcond.mpr hb), if_pos hb]
  · rw [if_neg (fun hA => hb (hcond.mp hA)), if_neg hb]
    rfl

theorem keyboard_modifier_update_fst_modifiers (kb : Keyboard) (s : XkbState)
    (h : kb.xkb_state = some s) :
    (keyboard_modifier_update kb).1.modifiers = serializedMods s := by
  rw [keyboard_modifier_update_eq kb s h]
  by_cases hb : serializedMods s = kb.modifiers
  · rw [if_pos hb]; exact hb.symm
  · rw [if_neg hb]

theorem keyboard_modifier_update_fst_fields (kb : Keyboard) :
    (keyboard_modifier_update kb).1.keycodes = kb.keycodes ∧
    (keyboard_modifier_update kb).1.xkb_state = kb.xkb_state ∧
    (keyboard_modifier_update kb).1.led_indexes = kb.led_indexes ∧
    (keyboard_modifier_update kb).1.mod_indexes = kb.mod_indexes ∧
    (keyboard_modifier_update kb).1.keymap = kb.keymap ∧
    (keyboard_modifier_update kb).1.keymap_string = kb.keymap_string := by
  cases h : kb.xkb_state with
  | none =>
      have he : keyboard_modifier_update kb = (kb, false) := by
        unfold keyboard_modifier_update
        rw [h]
      rw [he]
      exact ⟨rfl, h, rfl, rfl, rfl, rfl⟩
  | some s =>
      rw [keyboard_modifier_update_eq kb s h]
      by_cases hb : serializedMods s = kb.modifiers
      · rw [if_pos hb]
        exact ⟨rfl, h, rfl, rfl, rfl, rfl⟩
      · rw [if_neg hb]
        exact ⟨rfl, h, rfl, rfl, rfl, rfl⟩

theorem keyboard_led_update_shape (kb : Keyboard) (s : XkbState)
    (h : kb.xkb_state = some s) :
    ∃ m, keyboard_led_update kb = [Emission.ledPush m] := by
  refine ⟨(List.range WLR_LED_COUNT).foldl
    (fun leds i =>
      if xkb_state_led_index_is_active s (kb.led_indexes.getD i none) ≠ 0
      then leds ||| (1 <<< i) else leds) 0, ?_⟩
  simp only [keyboard_led_update, h, wlr_keyboard_led_update]

theorem keyboard_key_update_xkb_state (kb : Keyboard) (e : KeyEvent) :
    (keyboard_key_update kb e).xkb_state = kb.xkb_state := rfl

theorem keyboard_key_update_modifiers (kb : Keyboard) (e : KeyEvent) :
    (keyboard_key_update kb e).modifiers = kb.modifiers := rfl

theorem xkb_state_update_mask_overwrite (s : XkbState)
    (d l lk bg lg lkg : Nat) :
    xkb_state_update_mask (xkb_state_update_mask s d l lk bg lg lkg)
      d l lk bg lg lkg = xkb_state_update_mask s d l lk bg lg lkg := rfl

theorem notify_modifiers_result (kb : Keyboard) (s : XkbState)
    (h : kb.xkb_state = some s) (d l lk g : Nat) :
    (wlr_keyboard_notify_modifiers kb d l lk g).1.xkb_state
        = some (xkb_state_update_mask s d l lk 0 0 g) ∧
    (wlr_keyboard_notify_modifiers kb d l lk g).1.modifiers
        = serializedMods (xkb_state_update_mask s d l lk 0 0 g) := by
  simp only [wlr_keyboard_notify_modifiers, h]
  rw [keyboard_modifier_update_eq
    { kb with xkb_state := some (xkb_state_update_mask s d l lk 0 0 g) }
    (xkb_state_update_mask s d l lk 0 0 g) rfl]
  by_cases hb : serializedMods (xkb_state_update_mask s d l lk 0 0 g)
      = kb.modifiers
  · rw [if_pos hb]
    exact ⟨rfl, hb.symm⟩
  · rw [if_neg hb]
    exact ⟨rfl, rfl⟩

theorem notify_modifiers_ems (kb : Keyboard) (s : XkbState)
    (h : kb.xkb_state = some s) (d l lk g : Nat) :
    ∃ m, (wlr_keyboard_notify_modifiers kb d l lk g).2 =
      if serializedMods (xkb_state_update_mask s d l lk 0 0 g) = kb.modifiers
      then [Emission.ledPush m]
      else [Emission.modifiers, Emission.ledPush m] := by
  simp only [wlr_keyboard_notify_modifiers, h]
  rw [keyboard_modifier_update_eq
    { kb with xkb_state := some (xkb_state_update_mask s d l lk 0 0 g) }
    (xkb_state_update_mask s d l lk 0 0 g) rfl]
  by_cases hb : serializedMods (xkb_state_update_mask s d l lk 0 0 g)
      = kb.modifiers
  · obtain ⟨m, hm⟩ := keyboard_led_update_shape
      { kb with xkb_state := some (xkb_state_update_mask s d l lk 0 0 g) }
      (xkb_state_update_mask s d l lk 0 0 g) rfl
    exact ⟨m, by simp [hb, hm]⟩
  · obtain ⟨m, hm⟩ := keyboard_led_update_shape
      { kb with xkb_state := some (xkb_state_update_mask s d l lk 0 0 g),
                modifiers :=
                  serializedMods (xkb_state_update_mask s d l lk 0 0 g) }
      (xkb_state_update_mask s d l lk 0 0 g) rfl
    exact ⟨m, by simp [hb, hm]⟩

theorem notify_key_ems (kb : Keyboard) (s : XkbState)
    (h : kb.xkb_state = some s) (e : KeyEvent) :
    ∃ m, (wlr_keyboard_notify_key kb e).2 =
      if serializedMods (notifyKeyXkbStep s e) = kb.modifiers
      then [Emission.key e, Emission.ledPush m]
      else [Emission.key e, Emission.modifiers, Emission.ledPush m] := by
  simp only [wlr_keyboard_notify_key, keyboard_key_update_xkb_state, h]
  by_cases hu : e.update_state
  · simp only [hu, if_true]
    rw [keyboard_modifier_update_eq
      { keyboard_key_update kb e with xkb_state := some (xkb_state_update_key
          s (e.keycode + 8)
          (if e.state = KeyState.pressed then XkbKeyDirection.down
           else XkbKeyDirection.up)) }
      (notifyKeyXkbStep s e) (by simp [notifyKeyXkbStep, hu])]
    by_cases hb : serializedMods (notifyKeyXkbStep s e) = kb.modifiers
    · obtain ⟨m, hm⟩ := keyboard_led_update_shape
        { keyboard_key_update kb e with
          xkb_state := some (xkb_state_update_key s (e.keycode + 8)
            (if e.state = KeyState.pressed then XkbKeyDirection.down
             else XkbKeyDirection.up)),
          modifiers := kb.modifiers }
        (xkb_state_update_key s (e.keycode + 8)
          (if e.state = KeyState.pressed then XkbKeyDirection.down
           else XkbKeyDirection.up)) rfl
      exact ⟨m, by simp [hb, hm, keyboard_key_update_modifiers]⟩
    · obtain ⟨m, hm⟩ := keyboard_led_update_shape
        { keyboard_key_update kb e with
          xkb_state := some (xkb_state_update_key s (e.keycode + 8)
            (if e.state = KeyState.pressed then XkbKeyDirection.down
             else XkbKeyDirection.up)),
          modifiers := serializedMods (notifyKeyXkbStep s e) }
        (xkb_state_update_key s (e.keycode + 8)
          (if e.state = KeyState.pressed then XkbKeyDirection.down
           else XkbKeyDirection.up)) rfl
      exact ⟨m, by simp [hb, hm, keyboard_key_update_modifiers]⟩
  · simp only [hu, Bool.false_eq_true, if_false]
    rw [keyboard_modifier_update_eq (keyboard_key_update kb e)
      (notifyKeyXkbStep s e)
      (by simp [notifyKeyXkbStep, hu, keyboard_key_update_xkb_state, h])]
    by_cases hb : serializedMods (notifyKeyXkbStep s e) = kb.modifiers
    · obtain ⟨m, hm⟩ := keyboard_led_update_shape (keyboard_key_update kb e)
        s (by rw [keyboard_key_update_xkb_state]; exact h)
      exact ⟨m, by simp [hb, hm, keyboard_key_update_modifiers]⟩
    · obtain ⟨m, hm⟩ := keyboard_led_update_shape
        { keyboard_key_update kb e with
          modifiers := serializedMods (notifyKeyXkbStep s e) } s
        (by rw [show ({ keyboard_key_update kb e with
            modifiers := serializedMods (notifyKeyXkbStep s e) }
            : Keyboard).xkb_state = kb.xkb_state from rfl]; exact h)
      exact ⟨m, by simp [hb, hm, keyboard_key_update_modifiers]⟩

theorem set_keymap_fail_state (kb : Keyboard) (km : XkbKeymap)
    (h1 : km.stateOk = false) :
    wlr_keyboard_set_keymap kb km =
      (clearKeymapFields { kb with keymap := some km }, []) := by
  simp [wlr_keyboard_set_keymap, xkb_state_new, h1]

theorem set_keymap_fail_string (kb : Keyboard) (km : XkbKeymap)
    (h1 : km.stateOk = true) (h2 : km.asString = none) :
    wlr_keyboard_set_keymap kb km =
      (clearKeymapFields { kb with
        keymap := some km,
        xkb_state := some ⟨km, 0, 0, 0, 0⟩,
        led_indexes := led_names.map (xkb_map_led_get_index km),
        mod_indexes := mod_names.map (xkb_map_mod_get_index km) }, []) := by
  simp [wlr_keyboard_set_keymap, xkb_state_new, h1, xkb_keymap_get_as_string,
    h2, clearKeymapFields]

theorem set_keymap_success (kb : Keyboard) (km : XkbKeymap) (str : String)
    (h1 : km.stateOk = true) (h2 : km.asString = some str) :
    wlr_keyboard_set_keymap kb km =
      ((keyboard_modifier_update { kb with
          keymap := some km,
          xkb_state := some (kb.keycodes.foldl
            (fun s kc => xkb_state_update_key s (kc + 8) XkbKeyDirection.down)
            ⟨km, 0, 0, 0, 0⟩),
          led_indexes := led_names.map (xkb_map_led_get_index km),
          mod_indexes := mod_names.map (xkb_map_mod_get_index km),
          keymap_string := some str,
          keymap_size := str.length + 1 }).1,
       [Emission.keymap]) := by
  simp [wlr_keyboard_set_keymap, xkb_state_new, h1, xkb_keymap_get_as_string,
    h2]

/-- C4: when set_keymap fails — translation-state construction fails or
keymap serialization fails — the call rolls back to the no-keymap state
(keymap, translation state and serialized keymap all cleared) and emits
no notification of any kind. -/
theorem set_keymap_failure_rollback (kb : Keyboard) (km : XkbKeymap)
    (h : km.stateOk = false ∨ km.asString = none) :
    (wlr_keyboard_set_keymap kb km).1.keymap = none ∧
    (wlr_keyboard_set_keymap kb km).1.xkb_state = none ∧
    (wlr_keyboard_set_keymap kb km).1.keymap_string = none ∧
    (wlr_keyboard_set_keymap kb km).2 = [] := by
  rcases h with h | h
  · rw [set_keymap_fail_state kb km h]
    exact ⟨rfl, rfl, rfl, rfl⟩
  · cases h1 : km.stateOk with
    | false =>
        rw [set_keymap_fail_state kb km h1]
        exact ⟨rfl, rfl, rfl, rfl⟩
    | true =>
        rw [set_keymap_fail_string kb km h1 h]
        exact ⟨rfl, rfl, rfl, rfl⟩

/-- C4 witness: a keymap whose translation-state construction fails is
rolled back on a concrete keyboard. -/
theorem set_keymap_failure_rollback_witness :
    kmB.stateOk = false ∧
    ((wlr_keyboard_set_keymap kbW kmB).1.keymap = none ∧
     (wlr_keyboard_set_keymap kbW kmB).1.xkb_state = none ∧
     (wlr_keyboard_set_keymap kbW kmB).1.keymap_string = none ∧
     (wlr_keyboard_set_keymap kbW kmB).2 = []) :=
  ⟨rfl, set_keymap_failure_rollback kbW kmB (Or.inl rfl)⟩

/-- C5: every successful set_keymap emits exactly one keymap-changed
notification (and nothing else), for every prior keyboard state —
in particular also when the recomputed ModifierState equals the stored
one. -/
theorem set_keymap_emits_exactly_keymap (kb : Keyboard) (km : XkbKeymap)
    (str : String) (h1 : km.stateOk = true) (h2 : km.asString = some str) :
    (wlr_keyboard_set_keymap kb km).2 = [Emission.keymap] := by
  rw [set_keymap_success kb km str h1 h2]

/-- C5 witness: loading kmW on a fresh keyboard emits exactly the keymap
notification although the recomputed ModifierState is numerically equal
to the stored one. -/
theorem set_keymap_emits_exactly_keymap_witness :
    kmW.stateOk = true ∧ kmW.asString = some "W" ∧
    (wlr_keyboard_set_keymap wlr_keyboard_init kmW).2 = [Emission.keymap] ∧
    (wlr_keyboard_set_keymap wlr_keyboard_init kmW).1.modifiers
      = wlr_keyboard_init.modifiers :=
  ⟨rfl, rfl, set_keymap_emits_exactly_keymap wlr_keyboard_init kmW "W" rfl rfl,
   by decide⟩

/-- C10: a successful set_keymap never emits a modifiers-changed
notification during the call, for every prior keyboard state — in
particular also when the recomputed ModifierState differs from the stored
one. -/
theorem set_keymap_no_modifiers_signal (kb : Keyboard) (km : XkbKeymap)
    (str : String) (h1 : km.stateOk = true) (h2 : km.asString = some str) :
    Emission.modifiers ∉ (wlr_keyboard_set_keymap kb km).2 := by
  rw [set_keymap_success kb km str h1 h2]
  simp

/-- C10 witness: swapping in kmC6 while keycode 5 is held changes the
stored ModifierState, yet no modifiers notification is emitted. -/
theorem set_keymap_no_modifiers_signal_witness :
    kmC6.stateOk = true ∧ kmC6.asString = some "C" ∧
    Emission.modifiers ∉ (wlr_keyboard_set_keymap kbHeld1 kmC6).2 ∧
    (wlr_keyboard_set_keymap kbHeld1 kmC6).1.modifiers ≠ kbHeld1.modifiers :=
  ⟨rfl, rfl, set_keymap_no_modifiers_signal kbHeld1 kmC6 "C" rfl rfl,
   by decide⟩

/-- C3 (amended): the modifier-index and indicator-index tables are
recomputed in full, atomically, on every set_keymap call whose
translation-state construction succeeds (including calls that then fail
at serialization); when translation-state construction fails, both
tables are left exactly as they were before the call.  They are never
partially updated. -/
theorem set_keymap_index_tables (kb : Keyboard) (km : XkbKeymap) :
    (wlr_keyboard_set_keymap kb km).1.mod_indexes =
      (if km.stateOk then mod_names.map (xkb_map_mod_get_index km)
       else kb.mod_indexes) ∧
    (wlr_keyboard_set_keymap kb km).1.led_indexes =
      (if km.stateOk then led_names.map (xkb_map_led_get_index km)
       else kb.led_indexes) := by
  cases h1 : km.stateOk with
  | false =>
      rw [set_keymap_fail_state kb km h1]
      simp [clearKeymapFields]
  | true =>
      cases h2 : km.asString with
      | none =>
          rw [set_keymap_fail_string kb km h1 h2]
          simp [clearKeymapFields]
      | some str =>
          rw [set_keymap_success kb km str h1 h2]
          have hf := keyboard_modifier_update_fst_fields { kb with
            keymap := some km,
            xkb_state := some (kb.keycodes.foldl
              (fun s kc =>
                xkb_state_update_key s (kc + 8) XkbKeyDirection.down)
              ⟨km, 0, 0, 0, 0⟩),
            led_indexes := led_names.map (xkb_map_led_get_index km),
            mod_indexes := mod_names.map (xkb_map_mod_get_index km),
            keymap_string := some str,
            keymap_size := str.length + 1 }
          rw [hf.2.2.2.1, hf.2.2.1]
          simp

/-- C3 counterexample: set_keymap with a keymap whose translation-state
construction fails leaves the full modifier-index table from the prior
keymap in place — it is not recomputed from the new keymap. -/
theorem set_keymap_index_tables_counterexample :
    (wlr_keyboard_set_keymap kbAB kmB).1.mod_indexes ≠
      mod_names.map (xkb_map_mod_get_index kmB) ∧
    (wlr_keyboard_set_keymap kbAB kmB).1.mod_indexes =
      mod_names.map (xkb_map_mod_get_index kmA) := by
  constructor
  · decide
  · decide

/-- C1: with a keymap loaded, notify_modifiers and notify_key emit the
modifiers-changed notification exactly when at least one of the four
serialized masks computed from the (possibly just advanced) translation
state differs from the ModState stored immediately before the call; in
particular a repeated notify_modifiers with identical arguments emits no
second notification. -/
theorem modifiers_signal_gating (kb : Keyboard) (s : XkbState)
    (h : kb.xkb_state = some s) (d l lk g : Nat) (e : KeyEvent) :
    (Emission.modifiers ∈ (wlr_keyboard_notify_modifiers kb d l lk g).2 ↔
      serializedMods (xkb_state_update_mask s d l lk 0 0 g) ≠ kb.modifiers) ∧
    (Emission.modifiers ∈ (wlr_keyboard_notify_key kb e).2 ↔
      serializedMods (notifyKeyXkbStep s e) ≠ kb.modifiers) ∧
    Emission.modifiers ∉
      (wlr_keyboard_notify_modifiers
        (wlr_keyboard_notify_modifiers kb d l lk g).1 d l lk g).2 := by
  obtain ⟨m1, hm1⟩ := notify_modifiers_ems kb s h d l lk g
  obtain ⟨m2, hm2⟩ := notify_key_ems kb s h e
  obtain ⟨hx, hmods⟩ := notify_modifiers_result kb s h d l lk g
  refine ⟨?_, ?_, ?_⟩
  · rw [hm1]
    by_cases hb : serializedMods (xkb_state_update_mask s d l lk 0 0 g)
        = kb.modifiers
    · simp [hb]
    · simp [hb]
  · rw [hm2]
    by_cases hb : serializedMods (notifyKeyXkbStep s e) = kb.modifiers
    · simp [hb]
    · simp [hb]
  · obtain ⟨m3, hm3⟩ := notify_modifiers_ems
      (wlr_keyboard_notify_modifiers kb d l lk g).1
      (xkb_state_update_mask s d l lk 0 0 g) hx d l lk g
    rw [hm3, xkb_state_update_mask_overwrite, if_pos hmods.symm]
    simp

/-- C1 witness: on kbW, injecting depressed mask 1 fires the modifiers
notification once, and repeating the identical injection fires none. -/
theorem modifiers_signal_gating_witness :
    kbW.xkb_state = some stW ∧
    Emission.modifiers ∈ (wlr_keyboard_notify_modifiers kbW 1 0 0 0).2 ∧
    Emission.modifiers ∉
      (wlr_keyboard_notify_modifiers
        (wlr_keyboard_notify_modifiers kbW 1 0 0 0).1 1 0 0 0).2 :=
  ⟨rfl,
   (modifiers_signal_gating kbW stW rfl 1 0 0 0 evW).1.mpr (by decide),
   (modifiers_signal_gating kbW stW rfl 1 0 0 0 evW).2.2⟩

/-- C8: with a keymap loaded, notify_key and notify_modifiers each push
the recomputed indicator mask to the backend exactly once, for every
state — there is no change-gating on indicators. -/
theorem indicator_push_unconditional (kb : Keyboard) (s : XkbState)
    (h : kb.xkb_state = some s) (d l lk g : Nat) (e : KeyEvent) :
    (wlr_keyboard_notify_key kb e).2.countP isLedPush = 1 ∧
    (wlr_keyboard_notify_modifiers kb d l lk g).2.countP isLedPush = 1 := by
  obtain ⟨m1, hm1⟩ := notify_key_ems kb s h e
  obtain ⟨m2, hm2⟩ := notify_modifiers_ems kb s h d l lk g
  constructor
  · rw [hm1]
    by_cases hb : serializedMods (notifyKeyXkbStep s e) = kb.modifiers <;>
      simp [hb, List.countP_cons, isLedPush]
  · rw [hm2]
    by_cases hb : serializedMods (xkb_state_update_mask s d l lk 0 0 g)
        = kb.modifiers <;>
      simp [hb, List.countP_cons, isLedPush]

/-- C8 witness: on kbW, a key event and a modifier injection each produce
exactly one indicator push. -/
theorem indicator_push_unconditional_witness :
    kbW.xkb_state = some stW ∧
    ((wlr_keyboard_notify_key kbW evW).2.countP isLedPush = 1 ∧
     (wlr_keyboard_notify_modifiers kbW 0 0 0 0).2.countP isLedPush = 1) :=
  ⟨rfl, indicator_push_unconditional kbW stW rfl 0 0 0 0 evW⟩

theorem land_one_shiftLeft_ne_zero (m k : Nat) :
    m &&& (1 <<< k) ≠ 0 ↔ Nat.testBit m k = true := by
  rw [Nat.one_shiftLeft, Nat.and_two_pow]
  cases hm : m.testBit k
  · simp
  · simp [(Nat.two_pow_pos k).ne.symm]

theorem testBit_foldl_or (cond : Nat → Bool) (l : List Nat) (acc j : Nat) :
    Nat.testBit
      (l.foldl (fun m i => if cond i then m ||| (1 <<< i) else m) acc) j
      = (Nat.testBit acc j || l.any fun i => cond i && decide (i = j)) := by
  induction l generalizing acc with
  | nil => simp
  | cons hd tl ih =>
      rw [List.foldl_cons, ih, List.any_cons]
      by_cases hc : cond hd
      · rw [if_pos hc]
        simp [hc, Nat.testBit_or, Nat.one_shiftLeft, Nat.testBit_two_pow,
          Bool.or_assoc]
      · rw [if_neg hc]
        simp [hc]

theorem testBit_get_modifiers (kb : Keyboard) (j : Nat) :
    Nat.testBit (wlr_keyboard_get_modifiers kb) j = true ↔
      j < WLR_MODIFIER_COUNT ∧
        modIndexActive kb (kb.modifiers.depressed ||| kb.modifiers.latched) j
          = true := by
  simp only [wlr_keyboard_get_modifiers]
  rw [testBit_foldl_or]
  simp only [Nat.zero_testBit, Bool.false_or, List.any_eq_true,
    List.mem_range, Bool.and_eq_true, decide_eq_true_eq]
  constructor
  · rintro ⟨i, hi, hc, hij⟩
    subst hij
    exact ⟨hi, hc⟩
  · rintro ⟨hj, hc⟩
    exact ⟨j, hj, hc, rfl⟩

theorem modIndexActive_iff (kb : Keyboard) (mask i : Nat) :
    modIndexActive kb mask i = true ↔
      ∃ idx, kb.mod_indexes.getD i none = some idx ∧
        Nat.testBit mask idx = true := by
  unfold modIndexActive
  cases hg : kb.mod_indexes.getD i none with
  | none => simp
  | some idx => simp [land_one_shiftLeft_ne_zero]

/-- C7: bit i (for i < 8, over the fixed standard-modifier order) of
get_modifiers is set exactly when modifier i's index is present in the
stored table and that index's bit is set in the union of the stored
depressed and latched masks (the locked mask does not participate);
modifiers with an absent index, and all bits at position 8 and above, are
reported inactive. -/
theorem get_modifiers_spec (kb : Keyboard) (i : Nat)
    (hi : i < WLR_MODIFIER_COUNT) :
    (Nat.testBit (wlr_keyboard_get_modifiers kb) i = true ↔
      ∃ idx, kb.mod_indexes.getD i none = some idx ∧
        Nat.testBit (kb.modifiers.depressed ||| kb.modifiers.latched) idx
          = true) ∧
    (∀ j, WLR_MODIFIER_COUNT ≤ j →
      Nat.testBit (wlr_keyboard_get_modifiers kb) j = false) := by
  constructor
  · rw [testBit_get_modifiers, modIndexActive_iff]
    simp [hi]
  · intro j hj
    cases hbit : Nat.testBit (wlr_keyboard_get_modifiers kb) j with
    | false => rfl
    | true =>
        have hlt := ((testBit_get_modifiers kb j).mp hbit).1
        exact absurd hlt (Nat.not_lt.mpr hj)

/-- C7 witness: get_modifiers_spec instantiated on a concrete keyboard
whose Shift index is 1 and whose stored depressed mask is 2. -/
theorem get_modifiers_spec_witness :
    0 < WLR_MODIFIER_COUNT ∧
    ((Nat.testBit (wlr_keyboard_get_modifiers kbMods) 0 = true ↔
      ∃ idx, kbMods.mod_indexes.getD 0 none = some idx ∧
        Nat.testBit
          (kbMods.modifiers.depressed ||| kbMods.modifiers.latched) idx
          = true) ∧
    (∀ j, WLR_MODIFIER_COUNT ≤ j →
      Nat.testBit (wlr_keyboard_get_modifiers kbMods) j = false)) :=
  ⟨by decide, get_modifiers_spec kbMods 0 (by decide)⟩

/-- C6: after a successful set_keymap with KeySet = [k1, k2], the held
keycodes have been replayed into the fresh translation state before the
ModState was recomputed: when the new keymap maps k1 to Shift (at index
i) and k2 to nothing, the stored depressed mask is exactly the Shift bit
and get_modifiers reports Shift (bit 0) active. -/
theorem set_keymap_replays_held_keys (kb : Keyboard) (km : XkbKeymap)
    (str : String) (k1 k2 i : Nat)
    (h1 : km.stateOk = true) (h2 : km.asString = some str)
    (hkeys : kb.keycodes = [k1, k2])
    (hshift : km.modIdx "Shift" = some i)
    (hk1 : km.keyMods (k1 + 8) = 2 ^ i)
    (hk2 : km.keyMods (k2 + 8) = 0) :
    (wlr_keyboard_set_keymap kb km).1.modifiers.depressed = 2 ^ i ∧
    Nat.testBit
      (wlr_keyboard_get_modifiers (wlr_keyboard_set_keymap kb km).1) 0
      = true := by
  rw [set_keymap_success kb km str h1 h2]
  have hst : kb.keycodes.foldl
      (fun s kc => xkb_state_update_key s (kc + 8) XkbKeyDirection.down)
      (⟨km, 0, 0, 0, 0⟩ : XkbState) = ⟨km, 2 ^ i, 0, 0, 0⟩ := by
    rw [hkeys]
    simp [xkb_state_update_key, hk1, hk2, Nat.zero_or, Nat.or_zero]
  have hxs : ({ kb with
      keymap := some km,
      xkb_state := some (kb.keycodes.foldl
        (fun s kc => xkb_state_update_key s (kc + 8) XkbKeyDirection.down)
        ⟨km, 0, 0, 0, 0⟩),
      led_indexes := led_names.map (xkb_map_led_get_index km),
      mod_indexes := mod_names.map (xkb_map_mod_get_index km),
      keymap_string := some str,
      keymap_size := str.length + 1 } : Keyboard).xkb_state
      = some (⟨km, 2 ^ i, 0, 0, 0⟩ : XkbState) := by
    show some _ = _
    rw [hst]
  have hmods := keyboard_modifier_update_fst_modifiers _ _ hxs
  have hflds := keyboard_modifier_update_fst_fields { kb with
      keymap := some km,
      xkb_state := some (kb.keycodes.foldl
        (fun s kc => xkb_state_update_key s (kc + 8) XkbKeyDirection.down)
        ⟨km, 0, 0, 0, 0⟩),
      led_indexes := led_names.map (xkb_map_led_get_index km),
      mod_indexes := mod_names.map (xkb_map_mod_get_index km),
      keymap_string := some str,
      keymap_size := str.length + 1 }
  constructor
  · rw [hmods]
    rfl
  · rw [testBit_get_modifiers]
    refine ⟨by decide, ?_⟩
    rw [modIndexActive_iff]
    refine ⟨i, ?_, ?_⟩
    · rw [hflds.2.2.2.1]
      simp [mod_names, xkb_map_mod_get_index, hshift]
    · rw [hmods]
      simp [serializedMods, xkb_state_serialize_depressed,
        xkb_state_serialize_latched, Nat.or_zero, Nat.testBit_two_pow_self]

/-- C6 witness: swapping kmC6 in while keycodes 5 and 6 are held yields a
depressed mask with exactly the Shift bit and get_modifiers reporting
Shift active. -/
theorem set_keymap_replays_held_keys_witness :
    kbHeld2.keycodes = [5, 6] ∧ kmC6.modIdx "Shift" = some 0 ∧
    ((wlr_keyboard_set_keymap kbHeld2 kmC6).1.modifiers.depressed = 2 ^ 0 ∧
     Nat.testBit
       (wlr_keyboard_get_modifiers (wlr_keyboard_set_keymap kbHeld2 kmC6).1)
       0 = true) :=
  ⟨by decide, by decide,
   set_keymap_replays_held_keys kbHeld2 kmC6 "C" 5 6 0 rfl rfl (by decide)
     (by decide) (by decide) (by decide)⟩

theorem keyOps_foldl_length (ops : List KeyOp) :
    ∀ ks : List Nat, ks.length ≤ WLR_KEYBOARD_KEYS_CAP →
      (ops.foldl
        (fun ks op =>
          match op with
          | .press k => set_add ks WLR_KEYBOARD_KEYS_CAP k
          | .release k => set_remove ks k) ks).length
        ≤ WLR_KEYBOARD_KEYS_CAP := by
  induction ops with
  | nil =>
      intro ks h
      simpa using h
  | cons op tl ih =>
      intro ks h
      rw [List.foldl_cons]
      apply ih
      cases op with
      | press k =>
          show (set_add ks WLR_KEYBOARD_KEYS_CAP k).length
            ≤ WLR_KEYBOARD_KEYS_CAP
          rw [set_add]
          by_cases hmem : k ∈ ks
          · rw [if_pos hmem]
            exact h
          · rw [if_neg hmem]
            by_cases hlen : ks.length < WLR_KEYBOARD_KEYS_CAP
            · rw [if_pos hlen]
              simpa using hlen
            · rw [if_neg hlen]
              exact h
      | release k =>
          show (ks.erase k).length ≤ WLR_KEYBOARD_KEYS_CAP
          exact le_trans (List.erase_sublist k ks).length_le h

theorem keyOps_foldl_nodup (ops : List KeyOp) :
    ∀ ks : List Nat, ks.Nodup →
      (ops.foldl
        (fun ks op =>
          match op with
          | .press k => set_add ks WLR_KEYBOARD_KEYS_CAP k
          | .release k => set_remove ks k) ks).Nodup := by
  induction ops with
  | nil =>
      intro ks h
      simpa using h
  | cons op tl ih =>
      intro ks h
      rw [List.foldl_cons]
      apply ih
      cases op with
      | press k =>
          show (set_add ks WLR_KEYBOARD_KEYS_CAP k).Nodup
          rw [set_add]
          by_cases hmem : k ∈ ks
          · rw [if_pos hmem]
            exact h
          · rw [if_neg hmem]
            by_cases hlen : ks.length < WLR_KEYBOARD_KEYS_CAP
            · rw [if_pos hlen]
              refine List.nodup_append.mpr ⟨h, List.nodup_singleton k, ?_⟩
              intro a ha hb
              rw [List.mem_singleton] at hb
              subst hb
              exact hmem ha
            · rw [if_neg hlen]
              exact h
      | release k =>
          show (ks.erase k).Nodup
          exact h.erase k

theorem keyOps_agree (ops : List KeyOp)
    (h : ∀ n, n ≤ ops.length →
      (pressedRef (ops.take n)).length ≤ WLR_KEYBOARD_KEYS_CAP) :
    applyKeyOps ops = pressedRef ops := by
  induction ops using List.reverseRecOn with
  | nil => rfl
  | append_singleton tl op ih =>
      have hpre : ∀ n, n ≤ tl.length →
          (pressedRef (tl.take n)).length ≤ WLR_KEYBOARD_KEYS_CAP := by
        intro n hn
        have h2 := h n (by rw [List.length_append]; omega)
        rwa [List.take_eq_left_iff.mpr (Or.inr hn)] at h2
      have heq := ih hpre
      rw [applyKeyOps, pressedRef, List.foldl_append, List.foldl_append,
        ← applyKeyOps, ← pressedRef, heq]
      simp only [List.foldl_cons, List.foldl_nil]
      cases op with
      | release k => rfl
      | press k =>
          by_cases hmem : k ∈ pressedRef tl
          · simp [set_add, hmem]
          · have hfull := h (tl.length + 1) (by simp)
            rw [List.take_of_length_le (by simp)] at hfull
            have href : pressedRef (tl ++ [KeyOp.press k])
                = pressedRef tl ++ [k] := by
              rw [pressedRef, List.foldl_append, ← pressedRef]
              simp only [List.foldl_cons, List.foldl_nil]
              rw [if_neg hmem]
            rw [href] at hfull
            have hlen : (pressedRef tl).length < WLR_KEYBOARD_KEYS_CAP := by
              rw [List.length_append, List.length_singleton] at hfull
              omega
            simp [set_add, hmem, hlen]

/-- C9: over every press/release sequence run through set_add/set_remove,
the KeySet stays duplicate-free and within capacity; as long as the
number of distinct currently-pressed keycodes never exceeds the capacity
(the spec's standing assumption), its contents are exactly the distinct
currently-pressed keycodes, so its size equals their count; and a press
of an already-present keycode or a release of an absent keycode is a
no-op. -/
theorem keyset_invariants (ops : List KeyOp) :
    (applyKeyOps ops).length ≤ WLR_KEYBOARD_KEYS_CAP ∧
    (applyKeyOps ops).Nodup ∧
    ((∀ n, n ≤ ops.length →
        (pressedRef (ops.take n)).length ≤ WLR_KEYBOARD_KEYS_CAP) →
      applyKeyOps ops = pressedRef ops ∧
      (applyKeyOps ops).length = (pressedRef ops).length) ∧
    (∀ (ks : List Nat) (k : Nat), k ∈ ks →
      set_add ks WLR_KEYBOARD_KEYS_CAP k = ks) ∧
    (∀ (ks : List Nat) (k : Nat), k ∉ ks → set_remove ks k = ks) := by
  refine ⟨?_, ?_, ?_, ?_, ?_⟩
  · exact keyOps_foldl_length ops [] (by simp)
  · exact keyOps_foldl_nodup ops [] List.nodup_nil
  · intro h
    exact ⟨keyOps_agree ops h, by rw [keyOps_agree ops h]⟩
  · intro ks k h
    simp [set_add, h]
  · intro ks k h
    exact List.erase_of_not_mem h

/-- C9 witness: a concrete sequence with a repeated press and a release
of an unheld key stays within capacity and tracks the distinct
currently-pressed keycodes exactly. -/
theorem keyset_invariants_witness :
    (∀ n, n ≤ opsW.length →
      (pressedRef (opsW.take n)).length ≤ WLR_KEYBOARD_KEYS_CAP) ∧
    applyKeyOps opsW = pressedRef opsW ∧
    applyKeyOps opsW = [5] :=
  ⟨by decide, ((keyset_invariants opsW).2.2.1 (by decide)).1, by decide⟩

/-- C2: refuted by the code.  On kbW the NumLock indicator index is
absent (XKB_LED_INVALID), yet the indicator mask pushed after a key
event has the NumLock bit (bit 0) set to 1: for an invalid index
xkb_state_led_index_is_active returns -1 and the C call site tests the
result for truthiness (nonzero), so the absent indicator is reported
active, not inactive. -/
theorem led_absent_reported_active :
    kbW.led_indexes.getD 0 none = none ∧
    (wlr_keyboard_notify_key kbW evNoMod).2
      = [Emission.key evNoMod, Emission.ledPush 1] := by
  constructor
  · decide
  · decide

end Wlr
